import Mathlib

/-!
Verification of the crowd-behavior evaluation and evacuation alert system.

This file gives a shallow embedding, in Lean 4, of the core logic of the
repository (zone assignment, density classification, emergency-timer
escalation, exit routing and evacuation instructions), translated from the
Python sources `zone_logic.py`, `timer_manager.py`, `exit_logic.py`,
`evacuation.py` and the constants of `config.py`, and proves or refutes the
specification claims about it.

Python dictionaries are modelled as association lists that preserve
insertion order (`dictGet` / `dictSet` / `dictDel` below mirror `d[k]`,
`d[k] = v` and `del d[k]`); Python floats are modelled as rationals
(all constants involved are exactly representable); the wall clock
(`time.time()`) is modelled by passing the current time `now : ℚ`
explicitly to the operations that read it.
-/

namespace CrowdEval

/-- Lookup in a Python-style dict modelled as an association list:
the value of the first entry with the given key, `d.get(k)`. -/
def dictGet {α β : Type} [DecidableEq α] : List (α × β) → α → Option β
  | [], _ => none
  | (k', v) :: rest, k => if k' = k then some v else dictGet rest k

/-- Assignment `d[k] = v` on a Python-style dict: update the first entry
with the given key in place, or append a new entry at the end. -/
def dictSet {α β : Type} [DecidableEq α] : List (α × β) → α → β → List (α × β)
  | [], k, v => [(k, v)]
  | (k', v') :: rest, k, v =>
    if k' = k then (k', v) :: rest else (k', v') :: dictSet rest k v

/-- Deletion `del d[k]` on a Python-style dict: remove the first entry with
the given key (dictionaries built by `dictSet` never hold a key twice). -/
def dictDel {α β : Type} [DecidableEq α] : List (α × β) → α → List (α × β)
  | [], _ => []
  | (k', v') :: rest, k => if k' = k then rest else (k', v') :: dictDel rest k

/-- The keys of a dict, in insertion order. -/
def dictKeys {α β : Type} (d : List (α × β)) : List α := d.map Prod.fst

/-- The values of a dict, in insertion order (`d.values()`). -/
def dictValues {α β : Type} (d : List (α × β)) : List β := d.map Prod.snd

/-- `DENSITY_THRESHOLDS` from `config.py`: people per square meter. -/
def DENSITY_THRESHOLDS : List (String × ℚ) :=
  [("SAFE", 2), ("MODERATE", 7/2), ("WARNING", 5)]

/-- `TIMER_THRESHOLDS` from `config.py` (seconds); note that the source sets
both CRITICAL and SEVERE to 60 while its comments describe CRITICAL as the
30-60 second band. -/
def TIMER_THRESHOLDS : List (String × ℚ) :=
  [("WARNING", 30), ("CRITICAL", 60), ("SEVERE", 60)]

/-- `TIMER_FLASH_INTERVAL` from `config.py` (seconds between flashes). -/
def TIMER_FLASH_INTERVAL : ℚ := 1/2

/-- `calculate_density` from `zone_logic.py`: people per square meter,
guarding non-positive areas by returning 0. -/
def calculate_density (count : ℕ) (area : ℚ) : ℚ :=
  if area ≤ 0 then 0 else (count : ℚ) / area

/-- `get_status_by_density` from `zone_logic.py`: the four-tier ladder.
The Python indexes `DENSITY_THRESHOLDS[key]`; the keys are always present,
so the `getD 0` default is never taken. -/
def get_status_by_density (density : ℚ) : String :=
  if density < (dictGet DENSITY_THRESHOLDS "SAFE").getD 0 then "SAFE"
  else if density < (dictGet DENSITY_THRESHOLDS "MODERATE").getD 0 then "MODERATE"
  else if density < (dictGet DENSITY_THRESHOLDS "WARNING").getD 0 then "WARNING"
  else "EMERGENCY"

/-- The crossing test of one loop iteration of `point_in_polygon`:
`((yi > py) != (yj > py)) and (px < (xj - xi) * (py - yi) / (yj - yi) + xi)`.
When the first conjunct holds, `yi` and `yj` lie on opposite sides of `py`,
so `yj - yi ≠ 0`; when it fails the division is never evaluated in Python
(short-circuit), and in Lean the total `ℚ` division makes the conjunction
false all the same. -/
def pipEdgeCrosses (px py xi yi xj yj : ℚ) : Bool :=
  (decide (yi > py) != decide (yj > py)) &&
    decide (px < (xj - xi) * (py - yi) / (yj - yi) + xi)

/-- The `for i in range(n)` loop of `point_in_polygon`: walks the vertices
carrying the previous vertex `(xj, yj)` (initially the last vertex) and the
`inside` flag. -/
def pipGo (px py : ℚ) : List (ℚ × ℚ) → (ℚ × ℚ) → Bool → Bool
  | [], _, inside => inside
  | (xi, yi) :: rest, pj, inside =>
    pipGo px py rest (xi, yi)
      (if pipEdgeCrosses px py xi yi pj.1 pj.2 then !inside else inside)

/-- `point_in_polygon` from `zone_logic.py`: ray-casting test on the polygon
scaled from percentage to pixel coordinates. -/
def point_in_polygon (px py : ℚ) (polygon_pct : List (ℚ × ℚ))
    (frame_w frame_h : ℤ) : Bool :=
  let poly_px := polygon_pct.map fun v => (v.1 * (frame_w : ℚ), v.2 * (frame_h : ℚ))
  if poly_px.length < 3 then false
  else
    match poly_px.getLast? with
    | none => false
    | some pj => pipGo px py poly_px pj false

/-- A polygon zone configuration entry: `id`, `polygon` and the
administrator-declared `area` (read in `calculate_zone_statuses` via
`zone.get("area", 50)`, hence optional with default 50). -/
structure Zone where
  id : String
  polygon : List (ℚ × ℚ)
  area : Option ℚ
deriving DecidableEq

/-- A detection as consumed by the zone logic: its `center` point. -/
structure Detection where
  center : ℚ × ℚ
deriving DecidableEq

/-- A detection after `assign_detections_to_zones` has annotated it with
`det["zone_id"]` (the containing zone's id, or `None`). -/
structure AnnotatedDetection where
  center : ℚ × ℚ
  zone_id : Option String
deriving DecidableEq

/-- The inner `for zone in polygon_zones: ... break` loop of
`assign_detections_to_zones`: the first zone whose polygon contains the
point, if any. -/
def firstContainingZone (cx cy : ℚ) (polygon_zones : List Zone)
    (frame_w frame_h : ℤ) : Option Zone :=
  polygon_zones.find? fun zone => point_in_polygon cx cy zone.polygon frame_w frame_h

/-- The `for det in detections` loop of `assign_detections_to_zones`,
threading the counts dict and collecting the annotated detections. -/
def assignGo (polygon_zones : List Zone) (frame_w frame_h : ℤ) :
    List Detection → List (String × ℕ) → List (String × ℕ) × List AnnotatedDetection
  | [], zone_counts => (zone_counts, [])
  | det :: rest, zone_counts =>
    match firstContainingZone det.center.1 det.center.2 polygon_zones frame_w frame_h with
    | some zone =>
      let zone_counts' :=
        dictSet zone_counts zone.id ((dictGet zone_counts zone.id).getD 0 + 1)
      let r := assignGo polygon_zones frame_w frame_h rest zone_counts'
      (r.1, ⟨det.center, some zone.id⟩ :: r.2)
    | none =>
      let r := assignGo polygon_zones frame_w frame_h rest zone_counts
      (r.1, ⟨det.center, none⟩ :: r.2)

/-- The initial dict `{zone["id"]: 0 for zone in polygon_zones}`. -/
def initZoneCounts (polygon_zones : List Zone) : List (String × ℕ) :=
  polygon_zones.foldl (fun m zone => dictSet m zone.id 0) []

/-- `assign_detections_to_zones` from `zone_logic.py`: returns the
`zone_id -> count` dict and (modelling the in-place `det["zone_id"]`
mutation) the detections annotated with their zone. -/
def assign_detections_to_zones (detections : List Detection)
    (polygon_zones : List Zone) (frame_w frame_h : ℤ) :
    List (String × ℕ) × List AnnotatedDetection :=
  assignGo polygon_zones frame_w frame_h detections (initZoneCounts polygon_zones)

/-- The zone id a detection is assigned to: the id of the first containing
zone in declaration order, or `none`. -/
def matchedZoneId (polygon_zones : List Zone) (frame_w frame_h : ℤ)
    (det : Detection) : Option String :=
  (firstContainingZone det.center.1 det.center.2 polygon_zones frame_w frame_h).map Zone.id

/-- The sum of the values of a counts dict. -/
def sumValues {α : Type} (m : List (α × ℕ)) : ℕ := (m.map Prod.snd).sum

/-- One entry of `zone_timers`: `{'start_time': timestamp, 'elapsed': seconds}`. -/
structure TimerEntry where
  start_time : ℚ
  elapsed : ℚ
deriving DecidableEq

/-- The mutable state of `EmergencyTimerManager` (`__init__`). -/
structure EmergencyTimerManager where
  zone_timers : List (String × TimerEntry)
  flash_state : List (String × Bool)
  last_flash_toggle : List (String × ℚ)
deriving DecidableEq

/-- The dict returned by `get_timer_data` (the free-text `formatted_time`
field included). -/
structure TimerData where
  elapsed : ℚ
  formatted_time : String
  severity : String
  flash : Bool
deriving DecidableEq

/-- Zero-pad to two digits, Python's `{:02d}` format. -/
def pad2 (n : ℤ) : String :=
  if 0 ≤ n ∧ n < 10 then "0" ++ toString n else toString n

namespace EmergencyTimerManager

/-- `start_timer`: create the timer (and flash bookkeeping) only if the zone
has none; `time.time()` is the explicit `now`. -/
def start_timer (m : EmergencyTimerManager) (zone_id : String) (now : ℚ) :
    EmergencyTimerManager :=
  if (dictGet m.zone_timers zone_id).isSome then m
  else
    { zone_timers := dictSet m.zone_timers zone_id ⟨now, 0⟩
      flash_state := dictSet m.flash_state zone_id true
      last_flash_toggle := dictSet m.last_flash_toggle zone_id now }

/-- `update_timer`: recompute `elapsed = now - start_time` for an active
timer; returns the new state and the value Python returns (0 if absent). -/
def update_timer (m : EmergencyTimerManager) (zone_id : String) (now : ℚ) :
    EmergencyTimerManager × ℚ :=
  match dictGet m.zone_timers zone_id with
  | some entry =>
    let elapsed := now - entry.start_time
    ({ m with zone_timers := dictSet m.zone_timers zone_id ⟨entry.start_time, elapsed⟩ },
      elapsed)
  | none => (m, 0)

/-- `stop_timer`: delete the zone's timer and flash bookkeeping entirely. -/
def stop_timer (m : EmergencyTimerManager) (zone_id : String) :
    EmergencyTimerManager :=
  { zone_timers := dictDel m.zone_timers zone_id
    flash_state := dictDel m.flash_state zone_id
    last_flash_toggle := dictDel m.last_flash_toggle zone_id }

/-- `get_elapsed`: elapsed seconds, 0 when no timer is active. -/
def get_elapsed (m : EmergencyTimerManager) (zone_id : String) : ℚ :=
  match dictGet m.zone_timers zone_id with
  | some entry => entry.elapsed
  | none => 0

/-- `get_formatted_time`: `MM:SS`; `int(elapsed // 60)` is the floor of
`elapsed / 60`, and `int(elapsed % 60)` equals `⌊elapsed⌋ - 60 * ⌊elapsed / 60⌋`
because the Python float modulo lies in `[0, 60)`. -/
def get_formatted_time (m : EmergencyTimerManager) (zone_id : String) : String :=
  let elapsed := m.get_elapsed zone_id
  let minutes : ℤ := ⌊elapsed / 60⌋
  let seconds : ℤ := ⌊elapsed⌋ - 60 * ⌊elapsed / 60⌋
  pad2 minutes ++ ":" ++ pad2 seconds

/-- `get_severity_level`: the escalation ladder over `TIMER_THRESHOLDS`
(keys always present, so the `getD 0` default is never taken). -/
def get_severity_level (m : EmergencyTimerManager) (zone_id : String) : String :=
  let elapsed := m.get_elapsed zone_id
  if elapsed ≥ (dictGet TIMER_THRESHOLDS "SEVERE").getD 0 then "SEVERE"
  else if elapsed ≥ (dictGet TIMER_THRESHOLDS "CRITICAL").getD 0 then "CRITICAL"
  else "WARNING"

/-- `should_flash`: in SEVERE state, toggle `flash_state` whenever at least
`TIMER_FLASH_INTERVAL` elapsed since the last toggle, and return the
(possibly toggled) flash value via `flash_state.get(zone_id, True)`; always
`True` outside SEVERE. The `getD true` on the toggle read mirrors the fact
that `flash_state[zone_id]` is populated whenever `last_flash_toggle` is. -/
def should_flash (m : EmergencyTimerManager) (zone_id : String) (now : ℚ) :
    EmergencyTimerManager × Bool :=
  if m.get_severity_level zone_id = "SEVERE" then
    match dictGet m.last_flash_toggle zone_id with
    | some last =>
      if now - last ≥ TIMER_FLASH_INTERVAL then
        let m' := { m with
          flash_state :=
            dictSet m.flash_state zone_id (!((dictGet m.flash_state zone_id).getD true))
          last_flash_toggle := dictSet m.last_flash_toggle zone_id now }
        (m', (dictGet m'.flash_state zone_id).getD true)
      else (m, (dictGet m.flash_state zone_id).getD true)
    | none => (m, (dictGet m.flash_state zone_id).getD true)
  else (m, true)

/-- `get_timer_data`: `None` without an active timer; otherwise update the
elapsed time and assemble the data dict (the `should_flash` call mutates the
flash bookkeeping, so the updated manager is returned alongside). -/
def get_timer_data (m : EmergencyTimerManager) (zone_id : String) (now : ℚ) :
    EmergencyTimerManager × Option TimerData :=
  if (dictGet m.zone_timers zone_id).isSome then
    let m₁ := (m.update_timer zone_id now).1
    let fl := m₁.should_flash zone_id now
    (fl.1, some
      { elapsed := m₁.get_elapsed zone_id
        formatted_time := m₁.get_formatted_time zone_id
        severity := m₁.get_severity_level zone_id
        flash := fl.2 })
  else (m, none)

/-- `get_all_active_timers`: the ids with an active timer. -/
def get_all_active_timers (m : EmergencyTimerManager) : List String :=
  dictKeys m.zone_timers

/-- `reset_all`: clear every table. -/
def reset_all (_ : EmergencyTimerManager) : EmergencyTimerManager :=
  ⟨[], [], []⟩

end EmergencyTimerManager

/-- The body of the timer-management loop of `calculate_zone_statuses` for
one zone: start or stop the zone's timer according to its status, then
collect `get_timer_data` when a timer is active. The `getD ""` default on
the status lookup is never taken (every configured zone was given a status
by the first loop). -/
def timerFrameStep (zone_statuses : List (String × String)) (now : ℚ)
    (acc : EmergencyTimerManager × List (String × TimerData)) (zone : Zone) :
    EmergencyTimerManager × List (String × TimerData) :=
  let status := (dictGet zone_statuses zone.id).getD ""
  let tm1 :=
    if status = "EMERGENCY" then acc.1.start_timer zone.id now
    else acc.1.stop_timer zone.id
  let r := tm1.get_timer_data zone.id now
  (r.1,
    match r.2 with
    | some data => dictSet acc.2 zone.id data
    | none => acc.2)

/-- The first loop of `calculate_zone_statuses`: per-zone density and status
dicts. -/
def zoneDensityStatusFold (zone_counts : List (String × ℕ))
    (polygon_zones : List Zone) : List (String × ℚ) × List (String × String) :=
  polygon_zones.foldl
    (fun (acc : List (String × ℚ) × List (String × String)) zone =>
      let count := (dictGet zone_counts zone.id).getD 0
      let area := zone.area.getD 50
      let density := calculate_density count area
      let status := get_status_by_density density
      (dictSet acc.1 zone.id density, dictSet acc.2 zone.id status))
    ([], [])

/-- `calculate_zone_statuses` from `zone_logic.py`: per-zone density and
status (first loop), then the timer-management loop when a timer manager is
supplied. Returns the three dicts of the source plus the updated manager
(modelling the in-place mutation of `timer_manager`). -/
def calculate_zone_statuses (zone_counts : List (String × ℕ))
    (polygon_zones : List Zone) (timer_manager : Option EmergencyTimerManager)
    (now : ℚ) :
    List (String × ℚ) × List (String × String) × List (String × TimerData) ×
      Option EmergencyTimerManager :=
  let ds := zoneDensityStatusFold zone_counts polygon_zones
  match timer_manager with
  | none => (ds.1, ds.2, [], none)
  | some tm0 =>
    let r := polygon_zones.foldl (timerFrameStep ds.2 now) (tm0, [])
    (ds.1, ds.2, r.2, some r.1)

/-- The local dict `priority` of `get_global_alert_level` in `zone_logic.py`. -/
def ggaPriority : List (String × ℕ) :=
  [("SAFE", 0), ("MODERATE", 1), ("WARNING", 2), ("EMERGENCY", 3)]

/-- `priority.get(status, 0)`. -/
def statusPriority (status : String) : ℕ := (dictGet ggaPriority status).getD 0

/-- `get_global_alert_level` from `zone_logic.py`: scan the zone statuses
keeping the one of highest priority, starting from SAFE. -/
def get_global_alert_level (zone_statuses : List (String × String)) : String :=
  (dictValues zone_statuses).foldl
    (fun max_level status =>
      if statusPriority status > statusPriority max_level then status
      else max_level)
    "SAFE"

namespace Evacuation

/-- `get_global_alert_level` from `evacuation.py` (zones keyed by index):
highest severity present among the status values. -/
def get_global_alert_level (zone_statuses : List (ℕ × String)) : String :=
  let statuses := dictValues zone_statuses
  if "EMERGENCY" ∈ statuses then "EMERGENCY"
  else if "WARNING" ∈ statuses then "WARNING"
  else if "MODERATE" ∈ statuses then "MODERATE"
  else "SAFE"

end Evacuation

/-- An exit configuration entry as consumed by `exit_logic.py` and
`evacuation.py`: its display `name` and the `zones` (indices) it serves.
The purely presentational fields (`direction`, `capacity`) play no role in
any routing or instruction decision and are omitted. -/
structure ExitInfo where
  name : String
  zones : List ℕ
deriving DecidableEq

/-- The `for idx, exit_info in enumerate(exit_config)` loop of
`get_zone_exit_mapping` for one zone: record the first exit serving the zone
as primary, the next as secondary (then break); an exit serving the zone
when both are set would be skipped (unreachable, since the loop breaks). -/
def findPrimarySecondary (zone : ℕ) :
    List (ℕ × ExitInfo) → Option ℕ → Option ℕ → Option ℕ × Option ℕ
  | [], primary, secondary => (primary, secondary)
  | (idx, einfo) :: rest, primary, secondary =>
    if zone ∈ einfo.zones then
      match primary, secondary with
      | none, s => findPrimarySecondary zone rest (some idx) s
      | some p, none => (some p, some idx)
      | some p, some s => findPrimarySecondary zone rest (some p) (some s)
    else findPrimarySecondary zone rest primary secondary

/-- `get_zone_exit_mapping` from `exit_logic.py`: primary/secondary exit
indices for each of the four zones. -/
def get_zone_exit_mapping (exit_config : List ExitInfo) :
    List (ℕ × (Option ℕ × Option ℕ)) :=
  (List.range 4).map fun zone =>
    (zone, findPrimarySecondary zone exit_config.enum none none)

/-- `get_exit_status` from `exit_logic.py`: an exit is BLOCKED when any of
its zones is EMERGENCY, CROWDED when any is WARNING, otherwise OPEN. -/
def get_exit_status (exit_config : List ExitInfo)
    (zone_statuses : List (ℕ × String)) : List (ℕ × String) :=
  exit_config.enum.map fun ie =>
    (ie.1,
      let zone_stats := ie.2.zones.map fun z => (dictGet zone_statuses z).getD "SAFE"
      if "EMERGENCY" ∈ zone_stats then "BLOCKED"
      else if "WARNING" ∈ zone_stats then "CROWDED"
      else "OPEN")

/-- One guard of `get_best_exit_for_zone`:
`idx is not None and exit_statuses.get(idx) == s`. -/
def exitStatusIs (exit_statuses : List (ℕ × String)) (idx : Option ℕ)
    (s : String) : Bool :=
  match idx with
  | some i => dictGet exit_statuses i == some s
  | none => false

/-- `get_best_exit_for_zone` from `exit_logic.py`: primary if OPEN, else
secondary if OPEN, else primary if CROWDED, else secondary if CROWDED, else
`None`. The source indexes `exit_config[idx]` unchecked; the indices
produced by `get_zone_exit_mapping` are always in bounds, and `List.get?`
models the access. -/
def get_best_exit_for_zone (zone : ℕ) (exit_config : List ExitInfo)
    (zone_exit_mapping : List (ℕ × (Option ℕ × Option ℕ)))
    (exit_statuses : List (ℕ × String)) : Option ExitInfo :=
  let mapping := (dictGet zone_exit_mapping zone).getD (none, none)
  if exitStatusIs exit_statuses mapping.1 "OPEN" then mapping.1.bind exit_config.get?
  else if exitStatusIs exit_statuses mapping.2 "OPEN" then mapping.2.bind exit_config.get?
  else if exitStatusIs exit_statuses mapping.1 "CROWDED" then mapping.1.bind exit_config.get?
  else if exitStatusIs exit_statuses mapping.2 "CROWDED" then mapping.2.bind exit_config.get?
  else none

namespace Evacuation

/-- An instruction record of `generate_instructions`. The free-text
`message` field is presentation-only (same branch structure as `action`,
with names and numbers interpolated) and is omitted. -/
structure Instruction where
  zone : ℕ
  status : String
  action : String
  count : ℕ
  density : ℚ
  primary_exit : Option String
  secondary_exit : Option String
deriving DecidableEq

/-- Python truthiness of an optional exit-name string (`and primary_exit_name`):
false for `None` and for the empty string. -/
def truthyName : Option String → Bool
  | none => false
  | some s => !s.isEmpty

/-- `exit_config[idx].get("name", dflt)` guarded by
`idx is not None and idx < len(exit_config)` (the name key always exists in
the model, so `dflt` is never used). -/
def exitNameAt (exit_config : List ExitInfo) (idx : Option ℕ)
    (dflt : String) : Option String :=
  match idx with
  | some p =>
    if p < exit_config.length then
      some (((exit_config.get? p).map ExitInfo.name).getD dflt)
    else none
  | none => none

/-- `exit_statuses.get(idx, "OPEN")` guarded by
`idx is not None and idx < len(exit_config)`. -/
def exitStatusAt (exit_config : List ExitInfo)
    (exit_statuses : List (ℕ × String)) (idx : Option ℕ) : Option String :=
  match idx with
  | some p =>
    if p < exit_config.length then some ((dictGet exit_statuses p).getD "OPEN")
    else none
  | none => none

/-- The body of the `for zone in range(4)` loop of `generate_instructions`
(the interpolated message strings aside). -/
def generateZoneInstruction (zone : ℕ) (zone_statuses : List (ℕ × String))
    (zone_counts : List (ℕ × ℕ)) (zone_densities : List (ℕ × ℚ))
    (zone_config : List (ℕ × String)) (exit_config : List ExitInfo)
    (zone_exit_mapping : List (ℕ × (Option ℕ × Option ℕ)))
    (exit_statuses : List (ℕ × String)) : Instruction :=
  let status := (dictGet zone_statuses zone).getD "SAFE"
  let count := (dictGet zone_counts zone).getD 0
  let density := (dictGet zone_densities zone).getD 0
  let mapping := (dictGet zone_exit_mapping zone).getD (none, none)
  let primary_exit_name := exitNameAt exit_config mapping.1 "Primary Exit"
  let secondary_exit_name := exitNameAt exit_config mapping.2 "Secondary Exit"
  let primary_status := exitStatusAt exit_config exit_statuses mapping.1
  let secondary_status := exitStatusAt exit_config exit_statuses mapping.2
  let action :=
    if status = "SAFE" then "MONITOR"
    else if status = "MODERATE" then "CONTROL"
    else if status = "WARNING" then
      if primary_status = some "OPEN" ∧ truthyName primary_exit_name then
        "PREPARE"
      else if secondary_status = some "OPEN" ∧ truthyName secondary_exit_name then
        "REDIRECT"
      else if primary_status = some "CROWDED" ∧ truthyName primary_exit_name then
        "CAUTION"
      else "HOLD"
    else
      if primary_status = some "OPEN" ∧ truthyName primary_exit_name then
        "EVACUATE"
      else if secondary_status = some "OPEN" ∧ truthyName secondary_exit_name then
        "EVACUATE_ALT"
      else if primary_status = some "CROWDED" ∧ truthyName primary_exit_name then
        "EVACUATE_CROWDED"
      else if secondary_status = some "CROWDED" ∧ truthyName secondary_exit_name then
        "EVACUATE_CROWDED"
      else "AWAIT_RESCUE"
  { zone := zone, status := status, action := action, count := count,
    density := density, primary_exit := primary_exit_name,
    secondary_exit := secondary_exit_name }

/-- `generate_instructions` from `evacuation.py`: one instruction per zone
0..3. -/
def generate_instructions (zone_statuses : List (ℕ × String))
    (zone_counts : List (ℕ × ℕ)) (zone_densities : List (ℕ × ℚ))
    (zone_config : List (ℕ × String)) (exit_config : List ExitInfo)
    (zone_exit_mapping : List (ℕ × (Option ℕ × Option ℕ)))
    (exit_statuses : List (ℕ × String)) : List Instruction :=
  (List.range 4).map fun zone =>
    generateZoneInstruction zone zone_statuses zone_counts zone_densities
      zone_config exit_config zone_exit_mapping exit_statuses

end Evacuation

-- ============================================================================
-- Theorems
-- ============================================================================

theorem dictGet_dictSet_self {α β : Type} [DecidableEq α]
    (d : List (α × β)) (k : α) (v : β) : dictGet (dictSet d k v) k = some v := by
  induction d with
  | nil => simp [dictSet, dictGet]
  | cons hd tl ih =>
    obtain ⟨k', v'⟩ := hd
    by_cases h : k' = k <;> simp [dictSet, dictGet, h, ih]

theorem dictGet_eq_none_of_not_mem_keys {α β : Type} [DecidableEq α]
    (d : List (α × β)) (k : α) (h : k ∉ dictKeys d) : dictGet d k = none := by
  induction d with
  | nil => rfl
  | cons hd tl ih =>
    obtain ⟨k₀, v₀⟩ := hd
    simp only [dictKeys, List.map_cons, List.mem_cons] at h
    push_neg at h
    have hk : k₀ ≠ k := fun hh => h.1 hh.symm
    simpa [dictGet, hk] using ih h.2

theorem dictGet_dictSet_ne {α β : Type} [DecidableEq α]
    (d : List (α × β)) (k k' : α) (v : β) (h : k ≠ k') :
    dictGet (dictSet d k v) k' = dictGet d k' := by
  induction d with
  | nil => simp [dictSet, dictGet, h]
  | cons hd tl ih =>
    obtain ⟨k₀, v₀⟩ := hd
    by_cases h₀ : k₀ = k
    · subst h₀; simp [dictSet, dictGet, h]
    · simp [dictSet, dictGet, h₀, ih]

theorem dictGet_dictDel_self {α β : Type} [DecidableEq α]
    (d : List (α × β)) (k : α) (hnd : (dictKeys d).Nodup) :
    dictGet (dictDel d k) k = none := by
  induction d with
  | nil => rfl
  | cons hd tl ih =>
    obtain ⟨k₀, v₀⟩ := hd
    simp only [dictKeys, List.map_cons, List.nodup_cons] at hnd
    by_cases h₀ : k₀ = k
    · subst h₀
      simp only [dictDel, if_pos rfl]
      exact dictGet_eq_none_of_not_mem_keys tl k₀ hnd.1
    · simp [dictDel, h₀, dictGet, ih hnd.2]

theorem dictGet_dictDel_ne {α β : Type} [DecidableEq α]
    (d : List (α × β)) (k k' : α) (h : k ≠ k') :
    dictGet (dictDel d k) k' = dictGet d k' := by
  induction d with
  | nil => simp [dictDel]
  | cons hd tl ih =>
    obtain ⟨k₀, v₀⟩ := hd
    by_cases h₀ : k₀ = k
    · subst h₀; simp [dictDel, dictGet, h]
    · simp [dictDel, h₀, dictGet, ih]

theorem dictKeys_dictSet_mem {α β : Type} [DecidableEq α]
    (d : List (α × β)) (k k' : α) (v : β) :
    k' ∈ dictKeys (dictSet d k v) ↔ k' ∈ dictKeys d ∨ k' = k := by
  induction d with
  | nil => simp [dictSet, dictKeys]
  | cons hd tl ih =>
    obtain ⟨k₀, v₀⟩ := hd
    by_cases h₀ : k₀ = k
    · subst h₀
      simp [dictSet, dictKeys]
      tauto
    · simp only [dictSet, if_neg h₀, dictKeys, List.map_cons, List.mem_cons] at ih ⊢
      rw [ih]
      tauto

theorem dictGet_isSome_iff_mem_keys {α β : Type} [DecidableEq α]
    (d : List (α × β)) (k : α) : (dictGet d k).isSome ↔ k ∈ dictKeys d := by
  induction d with
  | nil => simp [dictGet, dictKeys]
  | cons hd tl ih =>
    obtain ⟨k₀, v₀⟩ := hd
    by_cases h₀ : k₀ = k
    · subst h₀; simp [dictGet, dictKeys]
    · have hk : k ≠ k₀ := fun hh => h₀ hh.symm
      simp [dictGet, dictKeys, h₀, hk, ih]

theorem density_thresholds_eval :
    (dictGet DENSITY_THRESHOLDS "SAFE").getD 0 = 2 ∧
    (dictGet DENSITY_THRESHOLDS "MODERATE").getD 0 = 7/2 ∧
    (dictGet DENSITY_THRESHOLDS "WARNING").getD 0 = 5 := by
  refine ⟨?_, ?_, ?_⟩ <;> rfl

/-- `get_status_by_density` as a plain threshold ladder, after evaluating the
lookups into `DENSITY_THRESHOLDS`. -/
theorem get_status_by_density_eq (d : ℚ) :
    get_status_by_density d =
      if d < 2 then "SAFE"
      else if d < 7/2 then "MODERATE"
      else if d < 5 then "WARNING"
      else "EMERGENCY" := by
  unfold get_status_by_density
  rw [density_thresholds_eval.1, density_thresholds_eval.2.1,
    density_thresholds_eval.2.2]

theorem assignGo_snd (zs : List Zone) (fw fh : ℤ) (dets : List Detection)
    (m : List (String × ℕ)) :
    (assignGo zs fw fh dets m).2 =
      dets.map fun det => ⟨det.center, matchedZoneId zs fw fh det⟩ := by
  induction dets generalizing m with
  | nil => rfl
  | cons det rest ih =>
    cases hf : firstContainingZone det.center.1 det.center.2 zs fw fh with
    | none => simp [assignGo, hf, matchedZoneId, ih]
    | some zone => simp [assignGo, hf, matchedZoneId, ih]

theorem initZoneCounts_get_aux (zs : List Zone) (m : List (String × ℕ)) (k : String) :
    dictGet (zs.foldl (fun m zone => dictSet m zone.id 0) m) k =
      if k ∈ zs.map Zone.id then some 0 else dictGet m k := by
  induction zs generalizing m with
  | nil => simp
  | cons z zs' ih =>
    simp only [List.foldl_cons, List.map_cons, List.mem_cons]
    rw [ih]
    by_cases hk' : k ∈ zs'.map Zone.id
    · simp [hk']
    · by_cases hk : k = z.id
      · subst hk
        simp [hk', dictGet_dictSet_self]
      · have : z.id ≠ k := fun hh => hk hh.symm
        simp [hk', hk, dictGet_dictSet_ne _ _ _ _ this]

theorem initZoneCounts_get (zs : List Zone) (k : String) :
    dictGet (initZoneCounts zs) k =
      if k ∈ zs.map Zone.id then some 0 else none := by
  have := initZoneCounts_get_aux zs [] k
  simpa [initZoneCounts, dictGet] using this

theorem mem_keys_initZoneCounts (zs : List Zone) :
    ∀ z ∈ zs, z.id ∈ dictKeys (initZoneCounts zs) := by
  intro z hz
  rw [← dictGet_isSome_iff_mem_keys, initZoneCounts_get]
  simp [List.mem_map.mpr ⟨z, hz, rfl⟩]

theorem assignGo_fst_get (zs : List Zone) (fw fh : ℤ) (dets : List Detection)
    (m : List (String × ℕ)) (h : ∀ z ∈ zs, z.id ∈ dictKeys m) (k : String) :
    dictGet (assignGo zs fw fh dets m).1 k =
      (dictGet m k).map
        (fun v => v + dets.countP fun det => decide (matchedZoneId zs fw fh det = some k)) := by
  induction dets generalizing m with
  | nil => cases hd : dictGet m k <;> simp [assignGo, hd]
  | cons det rest ih =>
    cases hf : firstContainingZone det.center.1 det.center.2 zs fw fh with
    | none =>
      have hm : matchedZoneId zs fw fh det = none := by simp [matchedZoneId, hf]
      simp [assignGo, hf, ih m h, List.countP_cons, hm]
    | some z =>
      have hz : z ∈ zs :=
        List.mem_of_find?_eq_some (by simpa [firstContainingZone] using hf)
      have hm : matchedZoneId zs fw fh det = some z.id := by simp [matchedZoneId, hf]
      have hsome : (dictGet m z.id).isSome :=
        (dictGet_isSome_iff_mem_keys m z.id).mpr (h z hz)
      obtain ⟨v, hv⟩ := Option.isSome_iff_exists.mp hsome
      have h' : ∀ z' ∈ zs, z'.id ∈ dictKeys (dictSet m z.id ((dictGet m z.id).getD 0 + 1)) :=
        fun z' hz' => (dictKeys_dictSet_mem _ _ _ _).mpr (Or.inl (h z' hz'))
      simp only [assignGo, hf]
      rw [ih _ h']
      by_cases hk : z.id = k
      · subst hk
        rw [dictGet_dictSet_self, hv]
        simp [List.countP_cons, hm, hv]
        ring
      · rw [dictGet_dictSet_ne _ _ _ _ hk]
        have : ¬(matchedZoneId zs fw fh det = some k) := by
          rw [hm]; simp; exact hk
        simp [List.countP_cons, this]

/-- Per-key characterization of the counts dict returned by
`assign_detections_to_zones`: a key is present iff it is a configured zone
id, and its count is the number of detections whose first containing zone
carries that id. -/
theorem assign_counts_get (dets : List Detection) (zs : List Zone)
    (fw fh : ℤ) (k : String) :
    dictGet (assign_detections_to_zones dets zs fw fh).1 k =
      if k ∈ zs.map Zone.id then
        some (dets.countP fun det => decide (matchedZoneId zs fw fh det = some k))
      else none := by
  rw [assign_detections_to_zones,
    assignGo_fst_get zs fw fh dets _ (mem_keys_initZoneCounts zs) k,
    initZoneCounts_get]
  by_cases hk : k ∈ zs.map Zone.id <;> simp [hk]

theorem sumValues_dictSet_succ {α : Type} [DecidableEq α]
    (m : List (α × ℕ)) (k : α) (v : ℕ) (hv : dictGet m k = some v) :
    sumValues (dictSet m k (v + 1)) = sumValues m + 1 := by
  induction m with
  | nil => simp [dictGet] at hv
  | cons hd tl ih =>
    obtain ⟨k₀, v₀⟩ := hd
    by_cases h₀ : k₀ = k
    · subst h₀
      simp [dictGet] at hv
      subst hv
      simp [dictSet, sumValues]
      omega
    · simp only [dictGet, if_neg h₀] at hv
      have h1 := ih hv
      simp only [sumValues] at h1
      simp only [dictSet, if_neg h₀, sumValues, List.map_cons, List.sum_cons, h1]
      omega

theorem dictSet_zero_all_zero {α : Type} [DecidableEq α]
    (m : List (α × ℕ)) (k : α) (h : ∀ kv ∈ m, kv.2 = 0) :
    ∀ kv ∈ dictSet m k 0, kv.2 = 0 := by
  induction m with
  | nil =>
    intro kv hkv
    simp only [dictSet, List.mem_singleton] at hkv
    subst hkv
    rfl
  | cons hd tl ih =>
    obtain ⟨k₀, v₀⟩ := hd
    by_cases h₀ : k₀ = k
    · subst h₀
      intro kv hkv
      simp only [dictSet] at hkv
      rw [if_pos trivial] at hkv
      simp only [List.mem_cons] at hkv
      rcases hkv with hkv | hkv
      · simp [hkv]
      · exact h kv (List.mem_cons_of_mem _ hkv)
    · intro kv hkv
      simp only [dictSet, if_neg h₀, List.mem_cons] at hkv
      rcases hkv with hkv | hkv
      · exact h kv (by simp [hkv])
      · exact ih (fun kv' hkv' => h kv' (List.mem_cons_of_mem _ hkv')) kv hkv

theorem initZoneCounts_all_zero_aux (zs : List Zone) (m : List (String × ℕ))
    (h : ∀ kv ∈ m, kv.2 = 0) :
    ∀ kv ∈ zs.foldl (fun m zone => dictSet m zone.id 0) m, kv.2 = 0 := by
  induction zs generalizing m with
  | nil => exact h
  | cons z zs' ih =>
    simp only [List.foldl_cons]
    exact ih _ (dictSet_zero_all_zero m z.id h)

theorem initZoneCounts_all_zero (zs : List Zone) :
    ∀ kv ∈ initZoneCounts zs, kv.2 = 0 :=
  initZoneCounts_all_zero_aux zs [] (by simp)

theorem sumValues_eq_zero {α : Type} (m : List (α × ℕ))
    (h : ∀ kv ∈ m, kv.2 = 0) : sumValues m = 0 := by
  refine List.sum_eq_zero ?_
  intro x hx
  obtain ⟨kv, hkv, rfl⟩ := List.mem_map.mp hx
  exact h kv hkv

theorem assignGo_sumValues (zs : List Zone) (fw fh : ℤ) (dets : List Detection)
    (m : List (String × ℕ)) (h : ∀ z ∈ zs, z.id ∈ dictKeys m) :
    sumValues (assignGo zs fw fh dets m).1 =
      sumValues m + dets.countP fun det => (matchedZoneId zs fw fh det).isSome := by
  induction dets generalizing m with
  | nil => simp [assignGo]
  | cons det rest ih =>
    cases hf : firstContainingZone det.center.1 det.center.2 zs fw fh with
    | none =>
      have hm : matchedZoneId zs fw fh det = none := by simp [matchedZoneId, hf]
      simp [assignGo, hf, ih m h, List.countP_cons, hm]
    | some z =>
      have hz : z ∈ zs :=
        List.mem_of_find?_eq_some (by simpa [firstContainingZone] using hf)
      have hsome : (dictGet m z.id).isSome :=
        (dictGet_isSome_iff_mem_keys m z.id).mpr (h z hz)
      obtain ⟨v, hv⟩ := Option.isSome_iff_exists.mp hsome
      have h' : ∀ z' ∈ zs, z'.id ∈ dictKeys (dictSet m z.id ((dictGet m z.id).getD 0 + 1)) :=
        fun z' hz' => (dictKeys_dictSet_mem _ _ _ _).mpr (Or.inl (h z' hz'))
      have hm : matchedZoneId zs fw fh det = some z.id := by simp [matchedZoneId, hf]
      simp only [assignGo, hf]
      rw [ih _ h']
      have hstep : (dictGet m z.id).getD 0 + 1 = v + 1 := by rw [hv]; rfl
      rw [hstep, sumValues_dictSet_succ m z.id v hv]
      simp [List.countP_cons, hm]
      ring

theorem assign_sumValues (dets : List Detection) (zs : List Zone) (fw fh : ℤ) :
    sumValues (assign_detections_to_zones dets zs fw fh).1 =
      dets.countP fun det => (matchedZoneId zs fw fh det).isSome := by
  rw [assign_detections_to_zones,
    assignGo_sumValues zs fw fh dets _ (mem_keys_initZoneCounts zs),
    sumValues_eq_zero _ (initZoneCounts_all_zero zs)]
  simp

/-- C4: the density classifier maps a value exactly at a tier boundary to the
higher tier: with the default thresholds, classifying 2.0 gives MODERATE,
3.5 gives WARNING, 5.0 gives EMERGENCY, and in general d < 2.0 gives SAFE,
2.0 ≤ d < 3.5 gives MODERATE, 3.5 ≤ d < 5.0 gives WARNING and 5.0 ≤ d gives
EMERGENCY. -/
theorem density_classifier_boundaries :
    get_status_by_density 2 = "MODERATE" ∧
    get_status_by_density (7/2) = "WARNING" ∧
    get_status_by_density 5 = "EMERGENCY" ∧
    ∀ d : ℚ,
      (d < 2 → get_status_by_density d = "SAFE") ∧
      (2 ≤ d → d < 7/2 → get_status_by_density d = "MODERATE") ∧
      (7/2 ≤ d → d < 5 → get_status_by_density d = "WARNING") ∧
      (5 ≤ d → get_status_by_density d = "EMERGENCY") := by
  refine ⟨?_, ?_, ?_, ?_⟩
  · rw [get_status_by_density_eq]; norm_num
  · rw [get_status_by_density_eq]; norm_num
  · rw [get_status_by_density_eq]; norm_num
  · intro d
    refine ⟨fun h1 => ?_, fun h1 h2 => ?_, fun h1 h2 => ?_, fun h1 => ?_⟩ <;>
      rw [get_status_by_density_eq] <;> split_ifs <;> first | rfl | linarith

/-- Witness for C4 at concrete densities 1.0 and 4.0. -/
theorem density_classifier_boundaries_witness :
    get_status_by_density 1 = "SAFE" ∧ get_status_by_density 4 = "WARNING" :=
  ⟨(density_classifier_boundaries.2.2.2 1).1 (by norm_num),
    (density_classifier_boundaries.2.2.2 4).2.2.1 (by norm_num) (by norm_num)⟩

/-- C8: for every count, a non-positive area yields density 0 (no exception)
and classification SAFE; a positive area yields density count / area. -/
theorem density_zero_area_guard :
    ∀ (count : ℕ) (area : ℚ),
      (area ≤ 0 → calculate_density count area = 0 ∧
        get_status_by_density (calculate_density count area) = "SAFE") ∧
      (0 < area → calculate_density count area = (count : ℚ) / area) := by
  intro count area
  constructor
  · intro h
    have h0 : calculate_density count area = 0 := by simp [calculate_density, h]
    refine ⟨h0, ?_⟩
    rw [h0, get_status_by_density_eq]
    norm_num
  · intro h
    have h' : ¬ area ≤ 0 := not_le.mpr h
    simp [calculate_density, h']

/-- Witness for C8 at count 5, area -1 and count 3, area 2. -/
theorem density_zero_area_guard_witness :
    (calculate_density 5 (-1) = 0 ∧
      get_status_by_density (calculate_density 5 (-1)) = "SAFE") ∧
    calculate_density 3 2 = 3/2 := by
  refine ⟨(density_zero_area_guard 5 (-1)).1 (by norm_num), ?_⟩
  rw [(density_zero_area_guard 3 2).2 (by norm_num)]
  norm_num

/-- C7: zone assignment is first-match-wins in declaration order: every
detection is annotated with the id of the first zone containing it (or
`none`), and each zone id's count is exactly the number of detections whose
first containing zone carries that id, so an overlapped later zone is never
incremented and an unmatched detection is counted nowhere. -/
theorem assignment_first_match_wins (dets : List Detection) (zs : List Zone)
    (fw fh : ℤ) :
    (assign_detections_to_zones dets zs fw fh).2 =
      (dets.map fun det => ⟨det.center, matchedZoneId zs fw fh det⟩) ∧
    ∀ k, dictGet (assign_detections_to_zones dets zs fw fh).1 k =
      if k ∈ zs.map Zone.id then
        some (dets.countP fun det => decide (matchedZoneId zs fw fh det = some k))
      else none :=
  ⟨by rw [assign_detections_to_zones, assignGo_snd],
    assign_counts_get dets zs fw fh⟩

/-- C10: the counts dict of zone assignment has exactly the configured zone
ids as keys (zones without detections map to 0 via the count formula), all
counts are natural numbers, and the counts sum to at most the number of
detections. -/
theorem assignment_counts_invariants (dets : List Detection) (zs : List Zone)
    (fw fh : ℤ) :
    (∀ k, k ∈ dictKeys (assign_detections_to_zones dets zs fw fh).1 ↔
      k ∈ zs.map Zone.id) ∧
    (∀ k n, dictGet (assign_detections_to_zones dets zs fw fh).1 k = some n →
      n = dets.countP fun det => decide (matchedZoneId zs fw fh det = some k)) ∧
    sumValues (assign_detections_to_zones dets zs fw fh).1 ≤ dets.length := by
  refine ⟨?_, ?_, ?_⟩
  · intro k
    rw [← dictGet_isSome_iff_mem_keys, assign_counts_get]
    by_cases hk : k ∈ zs.map Zone.id <;> simp [hk]
  · intro k n h
    rw [assign_counts_get] at h
    by_cases hk : k ∈ zs.map Zone.id
    · rw [if_pos hk] at h
      exact (Option.some.inj h).symm
    · rw [if_neg hk] at h
      exact absurd h (by simp)
  · rw [assign_sumValues]
    exact List.countP_le_length _

/-- C9: the point-in-polygon test returns false for every polygon with fewer
than 3 vertices, and a zone configured with such a degenerate polygon always
gets count 0 from zone assignment. -/
theorem degenerate_polygon_always_false :
    (∀ (px py : ℚ) (poly : List (ℚ × ℚ)) (fw fh : ℤ),
      poly.length < 3 → point_in_polygon px py poly fw fh = false) ∧
    ∀ (dets : List Detection) (zs : List Zone) (fw fh : ℤ) (z : Zone),
      z ∈ zs → z.polygon.length < 3 → (zs.map Zone.id).Nodup →
      dictGet (assign_detections_to_zones dets zs fw fh).1 z.id = some 0 := by
  have hpip : ∀ (px py : ℚ) (poly : List (ℚ × ℚ)) (fw fh : ℤ),
      poly.length < 3 → point_in_polygon px py poly fw fh = false := by
    intro px py poly fw fh h
    simp [point_in_polygon, List.length_map, h]
  refine ⟨hpip, ?_⟩
  intro dets zs fw fh z hz hdeg hnd
  rw [assign_counts_get, if_pos (List.mem_map.mpr ⟨z, hz, rfl⟩)]
  congr 1
  rw [List.countP_eq_zero]
  intro det hdet
  simp only [decide_eq_true_eq]
  intro hmz
  obtain ⟨z', hz'⟩ : ∃ z', firstContainingZone det.center.1 det.center.2 zs fw fh = some z' := by
    cases hfc : firstContainingZone det.center.1 det.center.2 zs fw fh with
    | none =>
      simp only [matchedZoneId, hfc, Option.map_none'] at hmz
      exact Option.noConfusion hmz
    | some z' => exact ⟨z', rfl⟩
  have hid : z'.id = z.id := by
    simp only [matchedZoneId, hz', Option.map_some'] at hmz
    simpa using hmz
  have hfind : List.find?
      (fun zone => point_in_polygon det.center.1 det.center.2 zone.polygon fw fh) zs = some z' := by
    simpa [firstContainingZone] using hz'
  have hz'mem : z' ∈ zs := List.mem_of_find?_eq_some hfind
  have hzz : z' = z := List.inj_on_of_nodup_map hnd hz'mem hz hid
  have htrue := List.find?_some hfind
  simp only [hzz, hpip det.center.1 det.center.2 z.polygon fw fh hdeg] at htrue
  exact Bool.false_ne_true htrue

theorem timer_thresholds_eval :
    (dictGet TIMER_THRESHOLDS "SEVERE").getD 0 = 60 ∧
    (dictGet TIMER_THRESHOLDS "CRITICAL").getD 0 = 60 ∧
    (dictGet TIMER_THRESHOLDS "WARNING").getD 0 = 30 := by
  refine ⟨?_, ?_, ?_⟩ <;> rfl

theorem dictKeys_dictSet {α β : Type} [DecidableEq α]
    (d : List (α × β)) (k : α) (v : β) :
    dictKeys (dictSet d k v) =
      if k ∈ dictKeys d then dictKeys d else dictKeys d ++ [k] := by
  induction d with
  | nil => simp [dictSet, dictKeys]
  | cons hd tl ih =>
    obtain ⟨k₀, v₀⟩ := hd
    by_cases h₀ : k₀ = k
    · subst h₀
      simp [dictSet, dictKeys]
    · have hk : k ≠ k₀ := fun hh => h₀ hh.symm
      simp only [dictSet, if_neg h₀, dictKeys, List.map_cons, List.mem_cons]
      rw [show (List.map Prod.fst (dictSet tl k v)) = dictKeys (dictSet tl k v) from rfl, ih]
      by_cases htl : k ∈ dictKeys tl <;> simp only [dictKeys] at htl <;>
        simp [htl, hk, dictKeys]

theorem nodup_dictKeys_dictSet {α β : Type} [DecidableEq α]
    (d : List (α × β)) (k : α) (v : β) (h : (dictKeys d).Nodup) :
    (dictKeys (dictSet d k v)).Nodup := by
  rw [dictKeys_dictSet]
  by_cases hk : k ∈ dictKeys d
  · simpa [hk] using h
  · rw [if_neg hk]
    refine List.Nodup.append h (List.nodup_singleton k) ?_
    intro a ha hb
    rw [List.mem_singleton] at hb
    subst hb
    exact hk ha

theorem dictKeys_dictDel_sublist {α β : Type} [DecidableEq α]
    (d : List (α × β)) (k : α) :
    (dictKeys (dictDel d k)).Sublist (dictKeys d) := by
  induction d with
  | nil => simp [dictDel, dictKeys]
  | cons hd tl ih =>
    obtain ⟨k₀, v₀⟩ := hd
    by_cases h₀ : k₀ = k
    · simp only [dictDel, if_pos h₀, dictKeys, List.map_cons]
      exact List.sublist_cons_of_sublist _ (List.Sublist.refl _)
    · simp only [dictDel, if_neg h₀, dictKeys, List.map_cons]
      exact List.Sublist.cons₂ _ ih

theorem nodup_dictKeys_dictDel {α β : Type} [DecidableEq α]
    (d : List (α × β)) (k : α) (h : (dictKeys d).Nodup) :
    (dictKeys (dictDel d k)).Nodup :=
  List.Nodup.sublist (dictKeys_dictDel_sublist d k) h

namespace EmergencyTimerManager

theorem start_timer_get_self (m : EmergencyTimerManager) (zid : String) (now : ℚ) :
    dictGet (m.start_timer zid now).zone_timers zid =
      some ((dictGet m.zone_timers zid).getD ⟨now, 0⟩) := by
  unfold start_timer
  cases h : dictGet m.zone_timers zid with
  | none => simp [h, dictGet_dictSet_self]
  | some e => simp [h]

theorem start_timer_get_ne (m : EmergencyTimerManager) (zid k : String)
    (now : ℚ) (hk : zid ≠ k) :
    dictGet (m.start_timer zid now).zone_timers k = dictGet m.zone_timers k := by
  unfold start_timer
  cases h : dictGet m.zone_timers zid with
  | none => simp [h, dictGet_dictSet_ne _ _ _ _ hk]
  | some e => simp [h]

theorem stop_timer_get_self (m : EmergencyTimerManager) (zid : String)
    (hwf : (dictKeys m.zone_timers).Nodup) :
    dictGet (m.stop_timer zid).zone_timers zid = none :=
  dictGet_dictDel_self _ _ hwf

theorem stop_timer_get_ne (m : EmergencyTimerManager) (zid k : String)
    (hk : zid ≠ k) :
    dictGet (m.stop_timer zid).zone_timers k = dictGet m.zone_timers k :=
  dictGet_dictDel_ne _ _ _ hk

theorem should_flash_zone_timers (m : EmergencyTimerManager) (zid : String)
    (now : ℚ) : ((m.should_flash zid now).1).zone_timers = m.zone_timers := by
  unfold should_flash
  by_cases h : m.get_severity_level zid = "SEVERE"
  · simp only [if_pos h]
    cases hl : dictGet m.last_flash_toggle zid with
    | none => rfl
    | some last =>
      by_cases h2 : now - last ≥ TIMER_FLASH_INTERVAL
      · simp [h2]
      · simp [h2]
  · simp [h]

theorem get_timer_data_fst_get_self (m : EmergencyTimerManager) (zid : String)
    (now : ℚ) :
    dictGet ((m.get_timer_data zid now).1).zone_timers zid =
      (dictGet m.zone_timers zid).map
        (fun e => ⟨e.start_time, now - e.start_time⟩) := by
  unfold get_timer_data
  cases h : dictGet m.zone_timers zid with
  | none => simp [h]
  | some e =>
    simp only [h, Option.isSome_some, if_pos]
    rw [should_flash_zone_timers]
    simp only [update_timer, h]
    simp [dictGet_dictSet_self]

theorem get_timer_data_fst_get_ne (m : EmergencyTimerManager) (zid k : String)
    (now : ℚ) (hk : zid ≠ k) :
    dictGet ((m.get_timer_data zid now).1).zone_timers k =
      dictGet m.zone_timers k := by
  unfold get_timer_data
  cases h : dictGet m.zone_timers zid with
  | none => simp [h]
  | some e =>
    simp only [h, Option.isSome_some, if_pos]
    rw [should_flash_zone_timers]
    simp only [update_timer, h]
    simp [dictGet_dictSet_ne _ _ _ _ hk]

theorem start_timer_wf (m : EmergencyTimerManager) (zid : String) (now : ℚ)
    (hwf : (dictKeys m.zone_timers).Nodup) :
    (dictKeys (m.start_timer zid now).zone_timers).Nodup := by
  unfold start_timer
  cases h : dictGet m.zone_timers zid with
  | none => simpa [h] using nodup_dictKeys_dictSet _ _ _ hwf
  | some e => simpa [h] using hwf

theorem stop_timer_wf (m : EmergencyTimerManager) (zid : String)
    (hwf : (dictKeys m.zone_timers).Nodup) :
    (dictKeys (m.stop_timer zid).zone_timers).Nodup :=
  nodup_dictKeys_dictDel _ _ hwf

theorem get_timer_data_wf (m : EmergencyTimerManager) (zid : String) (now : ℚ)
    (hwf : (dictKeys m.zone_timers).Nodup) :
    (dictKeys ((m.get_timer_data zid now).1).zone_timers).Nodup := by
  unfold get_timer_data
  cases h : dictGet m.zone_timers zid with
  | none => simpa [h] using hwf
  | some e =>
    simp only [h, Option.isSome_some, if_pos]
    rw [should_flash_zone_timers]
    simp only [update_timer, h]
    exact nodup_dictKeys_dictSet _ _ _ hwf

end EmergencyTimerManager

theorem timerFrameStep_fst (sts : List (String × String)) (now : ℚ)
    (acc : EmergencyTimerManager × List (String × TimerData)) (z : Zone) :
    (timerFrameStep sts now acc z).1 =
      ((if (dictGet sts z.id).getD "" = "EMERGENCY" then acc.1.start_timer z.id now
        else acc.1.stop_timer z.id).get_timer_data z.id now).1 := rfl

theorem timerFrameStep_wf (sts : List (String × String)) (now : ℚ)
    (acc : EmergencyTimerManager × List (String × TimerData)) (z : Zone)
    (hwf : (dictKeys acc.1.zone_timers).Nodup) :
    (dictKeys ((timerFrameStep sts now acc z).1).zone_timers).Nodup := by
  rw [timerFrameStep_fst]
  by_cases h : (dictGet sts z.id).getD "" = "EMERGENCY"
  · rw [if_pos h]
    exact EmergencyTimerManager.get_timer_data_wf _ _ _
      (EmergencyTimerManager.start_timer_wf _ _ _ hwf)
  · rw [if_neg h]
    exact EmergencyTimerManager.get_timer_data_wf _ _ _
      (EmergencyTimerManager.stop_timer_wf _ _ hwf)

theorem timerFrameStep_get_self (sts : List (String × String)) (now : ℚ)
    (acc : EmergencyTimerManager × List (String × TimerData)) (z : Zone)
    (hwf : (dictKeys acc.1.zone_timers).Nodup) :
    dictGet ((timerFrameStep sts now acc z).1).zone_timers z.id =
      if (dictGet sts z.id).getD "" = "EMERGENCY" then
        some ⟨((dictGet acc.1.zone_timers z.id).map TimerEntry.start_time).getD now,
          now - ((dictGet acc.1.zone_timers z.id).map TimerEntry.start_time).getD now⟩
      else none := by
  rw [timerFrameStep_fst]
  by_cases h : (dictGet sts z.id).getD "" = "EMERGENCY"
  · rw [if_pos h, if_pos h, EmergencyTimerManager.get_timer_data_fst_get_self,
      EmergencyTimerManager.start_timer_get_self]
    cases he : dictGet acc.1.zone_timers z.id with
    | none => simp [he]
    | some e => simp [he]
  · rw [if_neg h, if_neg h, EmergencyTimerManager.get_timer_data_fst_get_self,
      EmergencyTimerManager.stop_timer_get_self _ _ hwf]
    rfl

theorem timerFrameStep_get_ne (sts : List (String × String)) (now : ℚ)
    (acc : EmergencyTimerManager × List (String × TimerData)) (z : Zone)
    (k : String) (hk : z.id ≠ k) :
    dictGet ((timerFrameStep sts now acc z).1).zone_timers k =
      dictGet acc.1.zone_timers k := by
  rw [timerFrameStep_fst]
  by_cases h : (dictGet sts z.id).getD "" = "EMERGENCY"
  · rw [if_pos h, EmergencyTimerManager.get_timer_data_fst_get_ne _ _ _ _ hk,
      EmergencyTimerManager.start_timer_get_ne _ _ _ _ hk]
  · rw [if_neg h, EmergencyTimerManager.get_timer_data_fst_get_ne _ _ _ _ hk,
      EmergencyTimerManager.stop_timer_get_ne _ _ _ hk]

theorem timerFold_wf (sts : List (String × String)) (now : ℚ) (zs : List Zone)
    (acc : EmergencyTimerManager × List (String × TimerData))
    (hwf : (dictKeys acc.1.zone_timers).Nodup) :
    (dictKeys ((zs.foldl (timerFrameStep sts now) acc).1).zone_timers).Nodup := by
  induction zs generalizing acc with
  | nil => exact hwf
  | cons z zs' ih =>
    simp only [List.foldl_cons]
    exact ih _ (timerFrameStep_wf sts now acc z hwf)

theorem timerFold_get_not_mem (sts : List (String × String)) (now : ℚ)
    (zs : List Zone) (acc : EmergencyTimerManager × List (String × TimerData))
    (k : String) (hk : k ∉ zs.map Zone.id) :
    dictGet ((zs.foldl (timerFrameStep sts now) acc).1).zone_timers k =
      dictGet acc.1.zone_timers k := by
  induction zs generalizing acc with
  | nil => rfl
  | cons z zs' ih =>
    simp only [List.map_cons, List.mem_cons] at hk
    push_neg at hk
    simp only [List.foldl_cons]
    rw [ih _ hk.2, timerFrameStep_get_ne _ _ _ _ _ (fun hh => hk.1 hh.symm)]

theorem timerFold_get (sts : List (String × String)) (now : ℚ) (zs : List Zone)
    (acc : EmergencyTimerManager × List (String × TimerData))
    (hwf : (dictKeys acc.1.zone_timers).Nodup)
    (hnd : (zs.map Zone.id).Nodup) (z : Zone) (hz : z ∈ zs) :
    dictGet ((zs.foldl (timerFrameStep sts now) acc).1).zone_timers z.id =
      if (dictGet sts z.id).getD "" = "EMERGENCY" then
        some ⟨((dictGet acc.1.zone_timers z.id).map TimerEntry.start_time).getD now,
          now - ((dictGet acc.1.zone_timers z.id).map TimerEntry.start_time).getD now⟩
      else none := by
  induction zs generalizing acc with
  | nil => exact absurd hz (List.not_mem_nil z)
  | cons z₀ zs' ih =>
    simp only [List.map_cons, List.nodup_cons] at hnd
    rcases List.mem_cons.mp hz with hz₀ | hz'
    · subst hz₀
      simp only [List.foldl_cons]
      rw [timerFold_get_not_mem sts now zs' _ z.id hnd.1]
      exact timerFrameStep_get_self sts now acc z hwf
    · have hne : z₀.id ≠ z.id := by
        intro hh
        exact hnd.1 (hh ▸ List.mem_map.mpr ⟨z, hz', rfl⟩)
      simp only [List.foldl_cons]
      rw [ih _ (timerFrameStep_wf sts now acc z₀ hwf) hnd.2 hz',
        timerFrameStep_get_ne sts now acc z₀ z.id hne]

theorem czs_some_eq (zone_counts : List (String × ℕ)) (zs : List Zone)
    (tm : EmergencyTimerManager) (now : ℚ) :
    calculate_zone_statuses zone_counts zs (some tm) now =
      ((zoneDensityStatusFold zone_counts zs).1,
        (zoneDensityStatusFold zone_counts zs).2,
        (zs.foldl (timerFrameStep (zoneDensityStatusFold zone_counts zs).2 now)
          (tm, [])).2,
        some ((zs.foldl (timerFrameStep (zoneDensityStatusFold zone_counts zs).2 now)
          (tm, [])).1)) := rfl

theorem get_severity_level_eq (m : EmergencyTimerManager) (zid : String) :
    m.get_severity_level zid =
      if m.get_elapsed zid ≥ 60 then "SEVERE"
      else if m.get_elapsed zid ≥ 60 then "CRITICAL"
      else "WARNING" := by
  unfold EmergencyTimerManager.get_severity_level
  rw [timer_thresholds_eval.1, timer_thresholds_eval.2.1]

theorem elapsed_start_update (zid : String) (t₀ t₁ : ℚ) :
    ((((⟨[], [], []⟩ : EmergencyTimerManager).start_timer zid t₀).update_timer
      zid t₁).1).get_elapsed zid = t₁ - t₀ := by
  simp [EmergencyTimerManager.start_timer, EmergencyTimerManager.update_timer,
    EmergencyTimerManager.get_elapsed, dictGet, dictSet]

/-- C1 (code bug): the severity ladder of `get_severity_level`, driven by
`TIMER_THRESHOLDS` with both CRITICAL and SEVERE set to 60, reports WARNING
for a zone 45 seconds into EMERGENCY (the claim and the config comments say
CRITICAL for the 30-60 s band); the CRITICAL branch is unreachable for every
manager state. The claimed values at t=15 (WARNING) and t=75 (SEVERE) do
hold. -/
theorem timer_severity_at_45_is_warning :
    ((((⟨[], [], []⟩ : EmergencyTimerManager).start_timer "zone_0" 0).update_timer
        "zone_0" 45).1.get_severity_level "zone_0" = "WARNING") ∧
    ((((⟨[], [], []⟩ : EmergencyTimerManager).start_timer "zone_0" 0).update_timer
        "zone_0" 15).1.get_severity_level "zone_0" = "WARNING") ∧
    ((((⟨[], [], []⟩ : EmergencyTimerManager).start_timer "zone_0" 0).update_timer
        "zone_0" 75).1.get_severity_level "zone_0" = "SEVERE") ∧
    ∀ (m : EmergencyTimerManager) (zid : String),
      m.get_severity_level zid ≠ "CRITICAL" := by
  refine ⟨?_, ?_, ?_, ?_⟩
  · rw [get_severity_level_eq, elapsed_start_update]; norm_num
  · rw [get_severity_level_eq, elapsed_start_update]; norm_num
  · rw [get_severity_level_eq, elapsed_start_update]; norm_num
  · intro m zid
    rw [get_severity_level_eq]
    split_ifs with h1
    · decide
    · decide

/-- C5: after a frame update through `calculate_zone_statuses`, a configured
zone holds an active timer iff its status that frame was EMERGENCY; a zone
whose timer was absent and whose status is EMERGENCY gets a fresh timer with
`start_time = now` and elapsed 0 (so a zone that left EMERGENCY — whose
timer was deleted, third conjunct — restarts from elapsed 0 on re-entry);
a zone whose status is not EMERGENCY ends the frame with no timer. -/
theorem timer_lifecycle_invariant
    (zone_counts : List (String × ℕ)) (zs : List Zone)
    (tm : EmergencyTimerManager) (now : ℚ)
    (hwf : (dictKeys tm.zone_timers).Nodup)
    (hnd : (zs.map Zone.id).Nodup)
    (tm' : EmergencyTimerManager)
    (htm : (calculate_zone_statuses zone_counts zs (some tm) now).2.2.2 = some tm') :
    ∀ z ∈ zs,
      ((dictGet tm'.zone_timers z.id).isSome ↔
        dictGet (calculate_zone_statuses zone_counts zs (some tm) now).2.1 z.id =
          some "EMERGENCY") ∧
      (dictGet tm.zone_timers z.id = none →
        dictGet (calculate_zone_statuses zone_counts zs (some tm) now).2.1 z.id =
          some "EMERGENCY" →
        dictGet tm'.zone_timers z.id = some ⟨now, 0⟩) ∧
      (¬ dictGet (calculate_zone_statuses zone_counts zs (some tm) now).2.1 z.id =
          some "EMERGENCY" →
        dictGet tm'.zone_timers z.id = none) := by
  intro z hz
  have hshape := czs_some_eq zone_counts zs tm now
  have htm' : tm' =
      (zs.foldl (timerFrameStep (zoneDensityStatusFold zone_counts zs).2 now)
        (tm, [])).1 := by
    rw [hshape] at htm
    exact (Option.some.inj htm).symm
  have hs21 : (calculate_zone_statuses zone_counts zs (some tm) now).2.1 =
      (zoneDensityStatusFold zone_counts zs).2 := by rw [hshape]
  have hkey := timerFold_get (zoneDensityStatusFold zone_counts zs).2 now zs
    (tm, []) hwf hnd z hz
  have hconv : ((dictGet (zoneDensityStatusFold zone_counts zs).2 z.id).getD "" =
      "EMERGENCY") ↔
      dictGet (zoneDensityStatusFold zone_counts zs).2 z.id = some "EMERGENCY" := by
    cases ho : dictGet (zoneDensityStatusFold zone_counts zs).2 z.id with
    | none =>
      simp only [Option.getD_none]
      constructor
      · intro h; exact absurd h (by decide)
      · intro h; exact Option.noConfusion h
    | some s => simp
  rw [hs21, htm']
  refine ⟨?_, ?_, ?_⟩
  · rw [hkey]
    by_cases hst : (dictGet (zoneDensityStatusFold zone_counts zs).2 z.id).getD "" =
        "EMERGENCY"
    · rw [if_pos hst]
      simp only [Option.isSome_some, true_iff]
      exact hconv.mp hst
    · rw [if_neg hst]
      simp only [Option.isSome_none]
      constructor
      · intro h; exact absurd h (by decide)
      · intro h; exact absurd (hconv.mpr h) hst
  · intro hnone hem
    have hst := hconv.mpr hem
    rw [hkey, if_pos hst]
    show some _ = some (⟨now, 0⟩ : TimerEntry)
    have hacc : dictGet (tm, ([] : List (String × TimerData))).1.zone_timers z.id =
        none := hnone
    rw [hacc]
    simp
  · intro hnem
    have hst : ¬ (dictGet (zoneDensityStatusFold zone_counts zs).2 z.id).getD "" =
        "EMERGENCY" := fun hh => hnem (hconv.mp hh)
    rw [hkey, if_neg hst]

theorem strNe_empty_emerg : ("" : String) ≠ "EMERGENCY" := by decide

theorem strNe_warn_severe : ("WARNING" : String) ≠ "SEVERE" := by decide

theorem czs_witness_statuses :
    dictGet (calculate_zone_statuses [("zone_0", 10)] [⟨"zone_0", [], some 1⟩]
      (some ⟨[], [], []⟩) 0).2.1 "zone_0" = some "EMERGENCY" := by
  rw [czs_some_eq]
  norm_num [zoneDensityStatusFold, calculate_density, get_status_by_density_eq,
    dictGet, dictSet]

theorem czs_witness_manager :
    (calculate_zone_statuses [("zone_0", 10)] [⟨"zone_0", [], some 1⟩]
      (some ⟨[], [], []⟩) 0).2.2.2 =
      some ⟨[("zone_0", ⟨0, 0⟩)], [("zone_0", true)], [("zone_0", 0)]⟩ := by
  rw [czs_some_eq]
  norm_num [zoneDensityStatusFold, calculate_density, get_status_by_density_eq,
    timerFrameStep, EmergencyTimerManager.start_timer,
    EmergencyTimerManager.get_timer_data, EmergencyTimerManager.update_timer,
    EmergencyTimerManager.get_elapsed, EmergencyTimerManager.should_flash,
    get_severity_level_eq, dictGet, dictSet, strNe_warn_severe]

/-- Witness for C5: one zone of area 1 with 10 detections is EMERGENCY; from
an empty manager at time 0 the frame update creates its timer with
start_time 0 and elapsed 0. -/
theorem timer_lifecycle_invariant_witness :
    dictGet (⟨[("zone_0", ⟨0, 0⟩)], [("zone_0", true)], [("zone_0", 0)]⟩ :
      EmergencyTimerManager).zone_timers "zone_0" = some ⟨0, 0⟩ :=
  (timer_lifecycle_invariant [("zone_0", 10)] [⟨"zone_0", [], some 1⟩]
    ⟨[], [], []⟩ 0 (by simp [dictKeys]) (by simp)
    ⟨[("zone_0", ⟨0, 0⟩)], [("zone_0", true)], [("zone_0", 0)]⟩
    czs_witness_manager
    ⟨"zone_0", [], some 1⟩ (by simp)).2.1 rfl czs_witness_statuses

theorem gga_fold_spec (l : List String) (acc : String) :
    (statusPriority acc ≤ statusPriority (l.foldl
      (fun max_level status =>
        if statusPriority status > statusPriority max_level then status
        else max_level) acc)) ∧
    (∀ s ∈ l, statusPriority s ≤ statusPriority (l.foldl
      (fun max_level status =>
        if statusPriority status > statusPriority max_level then status
        else max_level) acc)) ∧
    ((l.foldl (fun max_level status =>
        if statusPriority status > statusPriority max_level then status
        else max_level) acc) = acc ∨
      (l.foldl (fun max_level status =>
        if statusPriority status > statusPriority max_level then status
        else max_level) acc) ∈ l) := by
  induction l generalizing acc with
  | nil => exact ⟨le_refl _, by simp, Or.inl rfl⟩
  | cons s rest ih =>
    simp only [List.foldl_cons]
    by_cases h : statusPriority s > statusPriority acc
    · rw [if_pos h]
      obtain ⟨ih1, ih2, ih3⟩ := ih s
      refine ⟨le_trans (le_of_lt h) ih1, ?_, ?_⟩
      · intro s' hs'
        rcases List.mem_cons.mp hs' with hs' | hs'
        · subst hs'; exact ih1
        · exact ih2 s' hs'
      · rcases ih3 with h3 | h3
        · exact Or.inr (by simp [h3])
        · exact Or.inr (List.mem_cons_of_mem _ h3)
    · rw [if_neg h]
      obtain ⟨ih1, ih2, ih3⟩ := ih acc
      refine ⟨ih1, ?_, ?_⟩
      · intro s' hs'
        rcases List.mem_cons.mp hs' with hs' | hs'
        · subst hs'
          exact le_trans (not_lt.mp h) ih1
        · exact ih2 s' hs'
      · rcases ih3 with h3 | h3
        · exact Or.inl h3
        · exact Or.inr (List.mem_cons_of_mem _ h3)

theorem statusPriority_eq (s : String) :
    statusPriority s =
      if "SAFE" = s then 0 else if "MODERATE" = s then 1
      else if "WARNING" = s then 2 else if "EMERGENCY" = s then 3 else 0 := by
  unfold statusPriority ggaPriority
  simp only [dictGet]
  split_ifs <;> rfl

theorem statusPriority_le_three (s : String) : statusPriority s ≤ 3 := by
  rw [statusPriority_eq]
  split_ifs <;> omega

theorem statusPriority_le_two (s : String) (hE : s ≠ "EMERGENCY") :
    statusPriority s ≤ 2 := by
  rw [statusPriority_eq]
  split_ifs with h1 h2 h3 h4
  · omega
  · omega
  · omega
  · exact absurd h4.symm hE
  · omega

theorem statusPriority_le_one (s : String) (hE : s ≠ "EMERGENCY")
    (hW : s ≠ "WARNING") : statusPriority s ≤ 1 := by
  rw [statusPriority_eq]
  split_ifs with h1 h2 h3 h4
  · omega
  · omega
  · exact absurd h3.symm hW
  · exact absurd h4.symm hE
  · omega

theorem statusPriority_eq_zero (s : String) (hE : s ≠ "EMERGENCY")
    (hW : s ≠ "WARNING") (hM : s ≠ "MODERATE") : statusPriority s = 0 := by
  rw [statusPriority_eq]
  split_ifs with h1 h2 h3 h4
  · rfl
  · exact absurd h2.symm hM
  · exact absurd h3.symm hW
  · exact absurd h4.symm hE
  · rfl

theorem evac_gga_priority_le (e : List (ℕ × String)) :
    ∀ kv ∈ e, statusPriority kv.2 ≤
      statusPriority (Evacuation.get_global_alert_level e) := by
  intro kv hkv
  have hv : kv.2 ∈ dictValues e := List.mem_map.mpr ⟨kv, hkv, rfl⟩
  unfold Evacuation.get_global_alert_level
  by_cases h1 : "EMERGENCY" ∈ dictValues e
  · rw [if_pos h1]
    rw [show statusPriority "EMERGENCY" = 3 from rfl]
    exact statusPriority_le_three _
  · rw [if_neg h1]
    have hne1 : kv.2 ≠ "EMERGENCY" := fun hh => h1 (hh ▸ hv)
    by_cases h2 : "WARNING" ∈ dictValues e
    · rw [if_pos h2]
      rw [show statusPriority "WARNING" = 2 from rfl]
      exact statusPriority_le_two _ hne1
    · rw [if_neg h2]
      have hne2 : kv.2 ≠ "WARNING" := fun hh => h2 (hh ▸ hv)
      by_cases h3 : "MODERATE" ∈ dictValues e
      · rw [if_pos h3]
        rw [show statusPriority "MODERATE" = 1 from rfl]
        exact statusPriority_le_one _ hne1 hne2
      · rw [if_neg h3]
        have hne3 : kv.2 ≠ "MODERATE" := fun hh => h3 (hh ▸ hv)
        rw [show statusPriority "SAFE" = 0 from rfl,
          statusPriority_eq_zero _ hne1 hne2 hne3]

/-- C6: both implementations of globalAlertLevel return the maximum status
under the ordering SAFE < MODERATE < WARNING < EMERGENCY (the result's
priority dominates every zone's, and the result is one of the statuses
present or the SAFE default); in particular the statuses
[SAFE, WARNING, EMERGENCY, MODERATE] yield EMERGENCY under both. -/
theorem global_alert_is_max (d : List (String × String)) (e : List (ℕ × String)) :
    (∀ kv ∈ d, statusPriority kv.2 ≤ statusPriority (get_global_alert_level d)) ∧
    (get_global_alert_level d ∈ dictValues d ∨ get_global_alert_level d = "SAFE") ∧
    (∀ kv ∈ e, statusPriority kv.2 ≤
      statusPriority (Evacuation.get_global_alert_level e)) ∧
    (Evacuation.get_global_alert_level e ∈ dictValues e ∨
      Evacuation.get_global_alert_level e = "SAFE") ∧
    get_global_alert_level
      [("z0", "SAFE"), ("z1", "WARNING"), ("z2", "EMERGENCY"), ("z3", "MODERATE")] =
      "EMERGENCY" ∧
    Evacuation.get_global_alert_level
      [(0, "SAFE"), (1, "WARNING"), (2, "EMERGENCY"), (3, "MODERATE")] =
      "EMERGENCY" := by
  have hfold := gga_fold_spec (dictValues d) "SAFE"
  refine ⟨?_, ?_, evac_gga_priority_le e, ?_, by decide, by decide⟩
  · intro kv hkv
    exact hfold.2.1 kv.2 (List.mem_map.mpr ⟨kv, hkv, rfl⟩)
  · rcases hfold.2.2 with h | h
    · exact Or.inr h
    · exact Or.inl h
  · unfold Evacuation.get_global_alert_level
    by_cases h1 : "EMERGENCY" ∈ dictValues e
    · rw [if_pos h1]; exact Or.inl h1
    · rw [if_neg h1]
      by_cases h2 : "WARNING" ∈ dictValues e
      · rw [if_pos h2]; exact Or.inl h2
      · rw [if_neg h2]
        by_cases h3 : "MODERATE" ∈ dictValues e
        · rw [if_pos h3]; exact Or.inl h3
        · rw [if_neg h3]; exact Or.inr rfl

theorem exitStatusIs_true_iff (exit_statuses : List (ℕ × String))
    (idx : Option ℕ) (s : String) :
    exitStatusIs exit_statuses idx s = true ↔
      ∃ i, idx = some i ∧ dictGet exit_statuses i = some s := by
  cases idx with
  | none => simp [exitStatusIs]
  | some i => simp [exitStatusIs]

/-- C3 (refuted by the code): the exit router is not distance-based and does
not restrict itself to OPEN exits. With the claim's own exits A (OPEN),
B (BLOCKED), C (OPEN) all serving zone 0, it returns A — the first-declared
OPEN exit — not the nearest open exit C; and with a single CROWDED exit
(no OPEN exit anywhere) it returns that exit instead of null. -/
theorem exit_router_counterexample :
    (get_best_exit_for_zone 0
      [⟨"Exit A", [0]⟩, ⟨"Exit B", [0]⟩, ⟨"Exit C", [0]⟩]
      (get_zone_exit_mapping [⟨"Exit A", [0]⟩, ⟨"Exit B", [0]⟩, ⟨"Exit C", [0]⟩])
      [(0, "OPEN"), (1, "BLOCKED"), (2, "OPEN")] = some ⟨"Exit A", [0]⟩) ∧
    ((⟨"Exit A", [0]⟩ : ExitInfo) ≠ ⟨"Exit C", [0]⟩) ∧
    (get_exit_status [⟨"Exit D", [0]⟩] [(0, "WARNING")] = [(0, "CROWDED")]) ∧
    (get_best_exit_for_zone 0 [⟨"Exit D", [0]⟩]
      (get_zone_exit_mapping [⟨"Exit D", [0]⟩])
      (get_exit_status [⟨"Exit D", [0]⟩] [(0, "WARNING")]) =
      some ⟨"Exit D", [0]⟩) := by
  refine ⟨by decide, by decide, by decide, by decide⟩

theorem exitStatusIs_some_true (exit_statuses : List (ℕ × String)) (i : ℕ)
    (s : String) (h : dictGet exit_statuses i = some s) :
    exitStatusIs exit_statuses (some i) s = true := by
  simp [exitStatusIs, h]

theorem exitStatusIs_eq_false (exit_statuses : List (ℕ × String))
    (idx : Option ℕ) (s : String)
    (h : ∀ i, idx = some i → dictGet exit_statuses i ≠ some s) :
    exitStatusIs exit_statuses idx s = false := by
  cases idx with
  | none => rfl
  | some i =>
    simp only [exitStatusIs]
    rw [beq_eq_false_iff_ne]
    exact h i rfl

theorem fps_some_none (zone : ℕ) (l : List (ℕ × ExitInfo)) (p : ℕ) :
    findPrimarySecondary zone l (some p) none =
      (some p, ((l.filter fun ie => zone ∈ ie.2.zones).map Prod.fst).get? 0) := by
  induction l with
  | nil => rfl
  | cons ie rest ih =>
    obtain ⟨idx, e⟩ := ie
    by_cases h : zone ∈ e.zones
    · simp [findPrimarySecondary, h, List.filter_cons, List.get?]
    · simp [findPrimarySecondary, h, List.filter_cons, ih]

theorem fps_none_none (zone : ℕ) (l : List (ℕ × ExitInfo)) :
    findPrimarySecondary zone l none none =
      (((l.filter fun ie => zone ∈ ie.2.zones).map Prod.fst).get? 0,
        ((l.filter fun ie => zone ∈ ie.2.zones).map Prod.fst).get? 1) := by
  induction l with
  | nil => rfl
  | cons ie rest ih =>
    obtain ⟨idx, e⟩ := ie
    by_cases h : zone ∈ e.zones
    · simp [findPrimarySecondary, h, List.filter_cons, fps_some_none, List.get?]
    · simp [findPrimarySecondary, h, List.filter_cons, ih]

theorem dictGet_map_self {β : Type} (l : List ℕ) (f : ℕ → β) (k : ℕ) :
    dictGet (l.map fun z => (z, f z)) k = if k ∈ l then some (f k) else none := by
  induction l with
  | nil => simp [dictGet]
  | cons z rest ih =>
    by_cases hz : z = k
    · subst hz
      simp [dictGet]
    · have hk : ¬(k = z) := fun hh => hz hh.symm
      simp [dictGet, hz, ih, List.mem_cons, hk]

theorem dictGet_gzem (exit_config : List ExitInfo) (zone : ℕ) :
    dictGet (get_zone_exit_mapping exit_config) zone =
      if zone < 4 then
        some (findPrimarySecondary zone exit_config.enum none none)
      else none := by
  unfold get_zone_exit_mapping
  rw [dictGet_map_self]
  simp [List.mem_range]

theorem serving_mem_spec (exit_config : List ExitInfo) (zone : ℕ) :
    ∀ i ∈ (exit_config.enum.filter fun ie => zone ∈ ie.2.zones).map Prod.fst,
      ∃ e, exit_config.get? i = some e ∧ zone ∈ e.zones := by
  intro i hi
  obtain ⟨⟨i', e⟩, hmem, rfl⟩ := List.mem_map.mp hi
  have h2 := List.mem_filter.mp hmem
  refine ⟨e, ?_, by simpa using h2.2⟩
  rw [List.get?_eq_getElem?]
  exact List.mk_mem_enum_iff_getElem?.mp h2.1

/-- C3 (amended): the exit router ignores geometry entirely. For a zone
(indices 0-3), the zone-to-exit mapping holds the first two exits listing
the zone, in declaration order (primary, then secondary; both in bounds and
serving the zone); the router then returns the primary if OPEN, else the
secondary if OPEN, else the primary if CROWDED, else the secondary if
CROWDED, else null; null is returned whenever neither mapped exit is OPEN
or CROWDED (other exits are never consulted) — in particular when all exits
are BLOCKED; and any returned exit is the mapped primary or secondary with
status OPEN or CROWDED, never BLOCKED. -/
theorem exit_router_priority_cascade (exit_config : List ExitInfo)
    (exit_statuses : List (ℕ × String)) (zone : ℕ) (hz : zone < 4) :
    let serving :=
      (exit_config.enum.filter fun ie => zone ∈ ie.2.zones).map Prod.fst
    let p := serving.get? 0
    let s := serving.get? 1
    let r := get_best_exit_for_zone zone exit_config
      (get_zone_exit_mapping exit_config) exit_statuses
    ((dictGet (get_zone_exit_mapping exit_config) zone).getD (none, none) =
      (p, s)) ∧
    (∀ i ∈ serving, ∃ e, exit_config.get? i = some e ∧ zone ∈ e.zones) ∧
    (∀ i, p = some i → dictGet exit_statuses i = some "OPEN" →
      r = exit_config.get? i) ∧
    (∀ i j, p = some i → dictGet exit_statuses i ≠ some "OPEN" →
      s = some j → dictGet exit_statuses j = some "OPEN" →
      r = exit_config.get? j) ∧
    (∀ i, p = some i → dictGet exit_statuses i ≠ some "OPEN" →
      (∀ j, s = some j → dictGet exit_statuses j ≠ some "OPEN") →
      dictGet exit_statuses i = some "CROWDED" →
      r = exit_config.get? i) ∧
    (∀ i j, p = some i → dictGet exit_statuses i ≠ some "OPEN" →
      s = some j → dictGet exit_statuses j ≠ some "OPEN" →
      dictGet exit_statuses i ≠ some "CROWDED" →
      dictGet exit_statuses j = some "CROWDED" →
      r = exit_config.get? j) ∧
    ((∀ i, p = some i → dictGet exit_statuses i ≠ some "OPEN" ∧
        dictGet exit_statuses i ≠ some "CROWDED") →
      (∀ j, s = some j → dictGet exit_statuses j ≠ some "OPEN" ∧
        dictGet exit_statuses j ≠ some "CROWDED") →
      r = none) ∧
    (∀ e, r = some e →
      ∃ i, (p = some i ∨ s = some i) ∧ exit_config.get? i = some e ∧
        (dictGet exit_statuses i = some "OPEN" ∨
          dictGet exit_statuses i = some "CROWDED")) := by
  intro serving p s r
  have hm : (dictGet (get_zone_exit_mapping exit_config) zone).getD
      (none, none) = (p, s) := by
    rw [dictGet_gzem, if_pos hz, Option.getD_some, fps_none_none]
  have hr : r =
      (if exitStatusIs exit_statuses p "OPEN" = true then
        p.bind exit_config.get?
      else if exitStatusIs exit_statuses s "OPEN" = true then
        s.bind exit_config.get?
      else if exitStatusIs exit_statuses p "CROWDED" = true then
        p.bind exit_config.get?
      else if exitStatusIs exit_statuses s "CROWDED" = true then
        s.bind exit_config.get?
      else none) := by
    show get_best_exit_for_zone zone exit_config
      (get_zone_exit_mapping exit_config) exit_statuses = _
    simp only [get_best_exit_for_zone, hm]
  refine ⟨hm, serving_mem_spec exit_config zone, ?_, ?_, ?_, ?_, ?_, ?_⟩
  · intro i hp hopen
    rw [hr, hp, exitStatusIs_some_true _ _ _ hopen]
    simp
  · intro i j hp hnopen hs hjopen
    rw [hr, hp, hs,
      exitStatusIs_eq_false _ _ _ (fun i' hi' => by cases hi'; exact hnopen),
      exitStatusIs_some_true _ _ _ hjopen]
    simp
  · intro i hp hnopen hsno hcrowd
    rw [hr, hp,
      exitStatusIs_eq_false _ _ _ (fun i' hi' => by cases hi'; exact hnopen),
      exitStatusIs_eq_false _ s _ hsno,
      exitStatusIs_some_true _ _ _ hcrowd]
    simp
  · intro i j hp hnopen hs hjnopen hncrowd hjcrowd
    rw [hr, hp, hs,
      exitStatusIs_eq_false _ _ "OPEN"
        (fun i' hi' => by cases hi'; exact hnopen),
      exitStatusIs_eq_false _ _ "OPEN"
        (fun j' hj' => by cases hj'; exact hjnopen),
      exitStatusIs_eq_false _ _ "CROWDED"
        (fun i' hi' => by cases hi'; exact hncrowd),
      exitStatusIs_some_true _ _ _ hjcrowd]
    simp
  · intro hpall hsall
    rw [hr,
      exitStatusIs_eq_false _ p "OPEN" (fun i hi => (hpall i hi).1),
      exitStatusIs_eq_false _ s "OPEN" (fun j hj => (hsall j hj).1),
      exitStatusIs_eq_false _ p "CROWDED" (fun i hi => (hpall i hi).2),
      exitStatusIs_eq_false _ s "CROWDED" (fun j hj => (hsall j hj).2)]
    simp
  · intro e he
    rw [hr] at he
    split_ifs at he with h1 h2 h3 h4
    · obtain ⟨i, hi, hst⟩ := (exitStatusIs_true_iff _ _ _).mp h1
      rw [hi] at he
      exact ⟨i, Or.inl hi, he, Or.inl hst⟩
    · obtain ⟨i, hi, hst⟩ := (exitStatusIs_true_iff _ _ _).mp h2
      rw [hi] at he
      exact ⟨i, Or.inr hi, he, Or.inl hst⟩
    · obtain ⟨i, hi, hst⟩ := (exitStatusIs_true_iff _ _ _).mp h3
      rw [hi] at he
      exact ⟨i, Or.inl hi, he, Or.inr hst⟩
    · obtain ⟨i, hi, hst⟩ := (exitStatusIs_true_iff _ _ _).mp h4
      rw [hi] at he
      exact ⟨i, Or.inr hi, he, Or.inr hst⟩

/-- Witness for C3 (amended): with no exits configured, the mapped primary
and secondary are absent and the router returns null. -/
theorem exit_router_priority_cascade_witness :
    get_best_exit_for_zone 0 [] (get_zone_exit_mapping []) [] = none :=
  (exit_router_priority_cascade [] [] 0 (by norm_num)).2.2.2.2.2.2.1
    (fun i hi => Option.noConfusion hi) (fun j hj => Option.noConfusion hj)

theorem strNe_mod_safe : ("MODERATE" : String) ≠ "SAFE" := by decide

theorem strNe_warn_safe : ("WARNING" : String) ≠ "SAFE" := by decide

theorem strNe_warn_mod : ("WARNING" : String) ≠ "MODERATE" := by decide

theorem strNe_emerg_safe : ("EMERGENCY" : String) ≠ "SAFE" := by decide

theorem strNe_emerg_mod : ("EMERGENCY" : String) ≠ "MODERATE" := by decide

theorem strNe_emerg_warn : ("EMERGENCY" : String) ≠ "WARNING" := by decide

theorem generate_instructions_get (zone_statuses : List (ℕ × String))
    (zone_counts : List (ℕ × ℕ)) (zone_densities : List (ℕ × ℚ))
    (zone_config : List (ℕ × String)) (exit_config : List ExitInfo)
    (zone_exit_mapping : List (ℕ × (Option ℕ × Option ℕ)))
    (exit_statuses : List (ℕ × String)) (zone : ℕ)
    (instr : Evacuation.Instruction)
    (hi : (Evacuation.generate_instructions zone_statuses zone_counts
      zone_densities zone_config exit_config zone_exit_mapping
      exit_statuses).get? zone = some instr) :
    zone < 4 ∧ instr = Evacuation.generateZoneInstruction zone zone_statuses
      zone_counts zone_densities zone_config exit_config zone_exit_mapping
      exit_statuses := by
  unfold Evacuation.generate_instructions at hi
  rw [List.get?_map] at hi
  by_cases hz : zone < 4
  · rw [List.get?_range hz] at hi
    simp only [Option.map_some'] at hi
    exact ⟨hz, (Option.some.inj hi).symm⟩
  · rw [List.get?_eq_none.mpr (by simpa using not_lt.mp hz)] at hi
    exact Option.noConfusion hi

/-- C2 (refuted by the code): the claimed decision table is incomplete. For
zone 0 in WARNING whose only exit is CROWDED (derived by `get_exit_status`
from the WARNING zone itself), no exit is OPEN, yet the generated action is
CAUTION, not the claimed HOLD. -/
theorem instruction_table_counterexample :
    get_exit_status [⟨"Exit E", [0]⟩] [(0, "WARNING")] = [(0, "CROWDED")] ∧
    ((Evacuation.generate_instructions [(0, "WARNING")] [(0, 5)] [(0, 4)] []
        [⟨"Exit E", [0]⟩] (get_zone_exit_mapping [⟨"Exit E", [0]⟩])
        (get_exit_status [⟨"Exit E", [0]⟩] [(0, "WARNING")])).get? 0).map
      Evacuation.Instruction.action = some "CAUTION" ∧
    ("CAUTION" : String) ≠ "HOLD" := by
  refine ⟨by decide, by decide, by decide⟩

/-- C2 (amended): per zone, the action is produced by this ladder on the
zone's status and the statuses of its mapped primary/secondary exits:
SAFE gives MONITOR; MODERATE gives CONTROL; WARNING gives PREPARE when the
primary exit is OPEN, else REDIRECT when the secondary is OPEN, else
CAUTION when the primary is CROWDED, else HOLD; any other status (the
EMERGENCY arm) gives EVACUATE when the primary is OPEN, else EVACUATE_ALT
when the secondary is OPEN, else EVACUATE_CROWDED when the primary or the
secondary is CROWDED, else AWAIT_RESCUE — so with no OPEN or CROWDED exit,
WARNING yields HOLD and EMERGENCY yields AWAIT_RESCUE, as the spec's
no-route scenario states. -/
theorem instruction_decision_table (zone_statuses : List (ℕ × String))
    (zone_counts : List (ℕ × ℕ)) (zone_densities : List (ℕ × ℚ))
    (zone_config : List (ℕ × String)) (exit_config : List ExitInfo)
    (zone_exit_mapping : List (ℕ × (Option ℕ × Option ℕ)))
    (exit_statuses : List (ℕ × String)) (zone : ℕ)
    (instr : Evacuation.Instruction)
    (hi : (Evacuation.generate_instructions zone_statuses zone_counts
      zone_densities zone_config exit_config zone_exit_mapping
      exit_statuses).get? zone = some instr) :
    instr.zone = zone ∧
    instr.status = (dictGet zone_statuses zone).getD "SAFE" ∧
    (let mapping := (dictGet zone_exit_mapping zone).getD (none, none)
     let pOpen := Evacuation.exitStatusAt exit_config exit_statuses mapping.1 =
         some "OPEN" ∧
       Evacuation.truthyName (Evacuation.exitNameAt exit_config mapping.1
         "Primary Exit") = true
     let sOpen := Evacuation.exitStatusAt exit_config exit_statuses mapping.2 =
         some "OPEN" ∧
       Evacuation.truthyName (Evacuation.exitNameAt exit_config mapping.2
         "Secondary Exit") = true
     let pCrowd := Evacuation.exitStatusAt exit_config exit_statuses mapping.1 =
         some "CROWDED" ∧
       Evacuation.truthyName (Evacuation.exitNameAt exit_config mapping.1
         "Primary Exit") = true
     let sCrowd := Evacuation.exitStatusAt exit_config exit_statuses mapping.2 =
         some "CROWDED" ∧
       Evacuation.truthyName (Evacuation.exitNameAt exit_config mapping.2
         "Secondary Exit") = true
     (instr.status = "SAFE" → instr.action = "MONITOR") ∧
     (instr.status = "MODERATE" → instr.action = "CONTROL") ∧
     (instr.status = "WARNING" →
       (pOpen → instr.action = "PREPARE") ∧
       (¬pOpen → sOpen → instr.action = "REDIRECT") ∧
       (¬pOpen → ¬sOpen → pCrowd → instr.action = "CAUTION") ∧
       (¬pOpen → ¬sOpen → ¬pCrowd → instr.action = "HOLD")) ∧
     (instr.status = "EMERGENCY" →
       (pOpen → instr.action = "EVACUATE") ∧
       (¬pOpen → sOpen → instr.action = "EVACUATE_ALT") ∧
       (¬pOpen → ¬sOpen → pCrowd → instr.action = "EVACUATE_CROWDED") ∧
       (¬pOpen → ¬sOpen → ¬pCrowd → sCrowd → instr.action = "EVACUATE_CROWDED") ∧
       (¬pOpen → ¬sOpen → ¬pCrowd → ¬sCrowd →
         instr.action = "AWAIT_RESCUE"))) := by
  obtain ⟨hz, hinstr⟩ := generate_instructions_get zone_statuses zone_counts
    zone_densities zone_config exit_config zone_exit_mapping exit_statuses
    zone instr hi
  subst hinstr
  refine ⟨rfl, rfl, ?_, ?_, ?_, ?_⟩
  · intro h
    simp only [Evacuation.generateZoneInstruction] at h ⊢
    rw [h, if_pos rfl]
  · intro h
    simp only [Evacuation.generateZoneInstruction] at h ⊢
    rw [h, if_neg strNe_mod_safe, if_pos rfl]
  · intro h
    simp only [Evacuation.generateZoneInstruction] at h ⊢
    rw [h, if_neg strNe_warn_safe, if_neg strNe_warn_mod, if_pos rfl]
    refine ⟨?_, ?_, ?_, ?_⟩
    · intro h1; rw [if_pos h1]
    · intro h1 h2; rw [if_neg h1, if_pos h2]
    · intro h1 h2 h3; rw [if_neg h1, if_neg h2, if_pos h3]
    · intro h1 h2 h3; rw [if_neg h1, if_neg h2, if_neg h3]
  · intro h
    simp only [Evacuation.generateZoneInstruction] at h ⊢
    rw [h, if_neg strNe_emerg_safe, if_neg strNe_emerg_mod,
      if_neg strNe_emerg_warn]
    refine ⟨?_, ?_, ?_, ?_, ?_⟩
    · intro h1; rw [if_pos h1]
    · intro h1 h2; rw [if_neg h1, if_pos h2]
    · intro h1 h2 h3; rw [if_neg h1, if_neg h2, if_pos h3]
    · intro h1 h2 h3 h4; rw [if_neg h1, if_neg h2, if_neg h3, if_pos h4]
    · intro h1 h2 h3 h4; rw [if_neg h1, if_neg h2, if_neg h3, if_neg h4]

/-- Witness for C2 (amended): with empty configuration, zone 0 is SAFE and
the action is MONITOR. -/
theorem instruction_decision_table_witness :
    (Evacuation.generateZoneInstruction 0 [] [] [] [] [] [] []).action =
      "MONITOR" :=
  ((instruction_decision_table [] [] [] [] [] [] [] 0
    (Evacuation.generateZoneInstruction 0 [] [] [] [] [] [] [])
    (by decide)).2.2.1) (by decide)

/-- Witness for C9: a two-vertex polygon rejects a concrete point, and a zone
with that polygon counts zero detections. -/
theorem degenerate_polygon_always_false_witness :
    point_in_polygon 5 5 [(0, 0), (1, 0)] 100 100 = false ∧
    dictGet (assign_detections_to_zones [⟨(5, 5)⟩]
      [⟨"zone_0", [(0, 0), (1, 0)], some 50⟩] 100 100).1 "zone_0" = some 0 := by
  constructor
  · exact degenerate_polygon_always_false.1 5 5 [(0, 0), (1, 0)] 100 100 (by norm_num)
  · exact degenerate_polygon_always_false.2 [⟨(5, 5)⟩]
      [⟨"zone_0", [(0, 0), (1, 0)], some 50⟩] 100 100
      ⟨"zone_0", [(0, 0), (1, 0)], some 50⟩ (by simp) (by norm_num) (by simp)

/-- Witness for C1: the dead-branch fact instantiated at a concrete manager
and zone. -/
theorem timer_severity_at_45_is_warning_witness :
    (⟨[], [], []⟩ : EmergencyTimerManager).get_severity_level "zone_1" ≠
      "CRITICAL" :=
  timer_severity_at_45_is_warning.2.2.2 ⟨[], [], []⟩ "zone_1"

/-- Witness for C6: the dominance fact instantiated at a concrete one-zone
map. -/
theorem global_alert_is_max_witness :
    statusPriority "WARNING" ≤
      statusPriority (get_global_alert_level [("z0", "WARNING")]) :=
  (global_alert_is_max [("z0", "WARNING")] []).1 ("z0", "WARNING") (by decide)

/-- Witness for C10: the count formula instantiated at a concrete zone with
no detections. -/
theorem assignment_counts_invariants_witness :
    (0 : ℕ) = ([] : List Detection).countP
      (fun det =>
        decide (matchedZoneId [⟨"zone_0", [], some 50⟩] 100 100 det =
          some "zone_0")) :=
  (assignment_counts_invariants [] [⟨"zone_0", [], some 50⟩] 100 100).2.1
    "zone_0" 0 (by decide)

end CrowdEval
